import Mathlib

set_option maxRecDepth 200000

/-!
Verification of the lingua-proxy tutor endpoint.

Shallow embedding of the two HTTP handler variants of the repository:

* variant A (`src/app/api/tutor/route.ts`): the Gemini handler, embedded in
  namespace `Gemini`;
* variant B (`src/unnamed/part_000`): the OpenAI handler, embedded in
  namespace `OpenAIV`.

Each handler is modelled as a pure function of the environment configuration,
the parsed inbound request, and the upstream provider's response.  The part of
the handler that runs before the outbound `fetch` is `preUpstream`, returning
either an early response (`Stage.early body status`) or the outbound payload
(`Stage.call payload`); the part that runs after the `fetch` is `postUpstream`.
JavaScript `null`/`undefined`/absent fields are `Option`, JS truthiness of a
string `s` is `s ≠ ""`, and `r.json().catch(() => ({}))` is modelled by an
`Option` of the parsed body defaulted to the empty data object.
-/

/-- Model of JavaScript `String.prototype.includes`: `pat` occurs as a
contiguous substring of `s` (over the character sequence). -/
def subOf : List Char → List Char → Bool
  | _, [] => true
  | [], _ :: _ => false
  | s@(_ :: t), p => p.isPrefixOf s || subOf t p

/-- Predicate `containsSubstr s pat` is true iff `pat` occurs inside `s` (JS `s.includes(pat)`). -/
def containsSubstr (s pat : String) : Bool :=
  subOf s.data pat.data

/-- Model of JavaScript `String.prototype.trim`: drop whitespace from both
ends of the character sequence. -/
def jsTrim (s : String) : String :=
  ⟨((s.data.dropWhile Char.isWhitespace).reverse.dropWhile Char.isWhitespace).reverse⟩

/-- Model of JavaScript `String.prototype.toLowerCase` (character-wise). -/
def jsToLower (s : String) : String :=
  ⟨s.data.map Char.toLower⟩

namespace Gemini

/-- Environment configuration read by the Gemini handler (`process.env.*`). -/
structure Env where
  APP_TOKEN : Option String
  GEMINI_API_KEY : Option String
  GEMINI_MODEL : Option String
deriving DecidableEq, Repr

/-- One entry of the optional `history` array of the request body
(`{ role, text }`, either field possibly absent). -/
structure HistoryMsg where
  role : Option String
  text : Option String
deriving DecidableEq, Repr

/-- The parsed JSON request body: every field may be absent.  Field values are
modelled after `.toString()` coercion. -/
structure ReqBody where
  lang : Option String
  text : Option String
  history : Option (List HistoryMsg)
deriving DecidableEq, Repr

/-- The inbound request: the `x-app-token` header (absent modelled as `none`)
and the result of `safeParseJson` (`none` when the body does not parse). -/
structure Req where
  xAppToken : Option String
  body : Option ReqBody
deriving DecidableEq, Repr

/-- One entry of the `contents` array sent to Gemini: a role plus the `parts`
texts (`{ role, parts: [{text}] }`). -/
structure ContentMsg where
  role : String
  parts : List String
deriving DecidableEq, Repr

/-- Function `normalizeLang` of `route.ts` lines 20-24. -/
def normalizeLang (input : String) : String :=
  let v := jsTrim (jsToLower input)
  if v = "it" ∨ containsSubstr v "ital" then "it" else "es"

/-- Function `buildInstructions` of `route.ts` lines 26-39: the system-prompt template,
parameterised by the target-language name, then trimmed. -/
def buildInstructions (lang : String) : String :=
  let target := if lang = "it" then "Italiano" else "Espanhol (rioplatense neutro)"
  jsTrim ("\nVocê é um tutor de idiomas.\nIdioma alvo: " ++ target ++
    ".\nIdioma da interface/explicações: Português (Brasil).\n\nRegras:\n- Responda curto e natural no idioma alvo.\n- Depois inclua uma seção \"Correções\" corrigindo a frase do usuário (se necessário).\n- Depois inclua uma seção \"Dica\" com 1 dica objetiva.\n- Se o usuário escrever em PT-BR, peça para ele tentar no idioma alvo.\n")

/-- Function `buildContents` of `route.ts` lines 43-69: history entries with non-empty
trimmed text become role-coerced messages, then the user text is appended. -/
def buildContents (history : Option (List HistoryMsg)) (userText : String) : List ContentMsg :=
  let base : List ContentMsg :=
    match history with
    | some hs =>
        hs.filterMap (fun m =>
          let t := jsTrim (m.text.getD "")
          if t = "" then none
          else
            let roleRaw := m.role.getD "user"
            let role := if roleRaw = "assistant" ∨ roleRaw = "model" then "model" else "user"
            some ⟨role, [t]⟩)
    | none => []
  base ++ [⟨"user", [userText]⟩]

/-- A `parts` element of a Gemini candidate (`{ text }`, possibly absent). -/
structure Part where
  text : Option String
deriving DecidableEq, Repr

/-- The `content` of a Gemini candidate (`{ parts }`, `none` when `parts` is
absent or not an array). -/
structure Content where
  parts : Option (List Part)
deriving DecidableEq, Repr

/-- One Gemini candidate (`{ content }`). -/
structure Candidate where
  content : Option Content
deriving DecidableEq, Repr

/-- The parsed Gemini response body: the fields the handler reads. -/
structure Data where
  candidates : Option (List Candidate)
  responseId : Option String
deriving DecidableEq, Repr

/-- The `{}` produced by `r.json().catch(() => ({}))`. -/
def emptyData : Data := ⟨none, none⟩

/-- Function `extractTextFromGemini` of `route.ts` lines 71-81: first candidate's
`content.parts`, keeping truthy string `text` fields, newline-joined, trimmed. -/
def extractTextFromGemini (data : Data) : String :=
  match data.candidates.bind List.head? with
  | none => ""
  | some cand =>
      match cand.content.bind Content.parts with
      | none => ""
      | some ps =>
          let out := ps.filterMap (fun p =>
            match p.text with
            | some t => if t ≠ "" then some t else none
            | none => none)
          jsTrim (String.intercalate "\n" out)

/-- The payload of the outbound Gemini call (`route.ts` lines 126-141): the
model name resolved from the environment, the rendered system instruction, the
contents list and the constant generation bound.  (The constant `temperature`
is a float and is not modelled.) -/
structure Payload where
  model : String
  system_instruction : String
  contents : List ContentMsg
  maxOutputTokens : Nat
deriving DecidableEq, Repr

/-- Response body shapes produced by the handler's `json(...)` calls. -/
inductive Body where
  | okTrue : Body
  | errorOnly (error : String) : Body
  | upstreamError (error : String) (status : Nat) (details : Data) : Body
  | emptyResponse (error : String) (response_id : String) (details : Data) : Body
  | success (text : String) (response_id : String) : Body
deriving DecidableEq, Repr

/-- An HTTP response: status, JSON body and headers. -/
structure Resp where
  status : Nat
  body : Body
  headers : List (String × String)
deriving DecidableEq, Repr

/-- The constant header map of `json` (`route.ts` lines 9-16). -/
def defaultHeaders : List (String × String) :=
  [("content-type", "application/json; charset=utf-8"),
   ("access-control-allow-origin", "*"),
   ("access-control-allow-headers", "content-type, x-app-token"),
   ("access-control-allow-methods", "POST, OPTIONS"),
   ("cache-control", "no-store")]

/-- Function `json` of `route.ts` lines 6-18. -/
def json (data : Body) (status : Nat) : Resp :=
  ⟨status, data, defaultHeaders⟩

/-- Handler `OPTIONS` of `route.ts` lines 99-101. -/
def OPTIONS : Resp := json Body.okTrue 200

/-- Result of the handler prefix that runs before the outbound call: either an
early response (`json data status` was returned) or the call is made. -/
inductive Stage where
  | early (data : Body) (status : Nat) : Stage
  | call (payload : Payload) : Stage
deriving DecidableEq, Repr

/-- The trimmed user text extracted by the handler
(`(body?.text ?? "").toString().trim()`, `route.ts` line 115). -/
def textOf (req : Req) : String :=
  jsTrim ((req.body.bind ReqBody.text).getD "")

/-- The raw `lang` field as the handler reads it (`body?.lang ?? "es"`). -/
def langOf (req : Req) : String :=
  (req.body.bind ReqBody.lang).getD "es"

/-- Lines 123-141 of `route.ts`: credential check and payload assembly, after
text validation has passed. -/
def afterValidation (env : Env) (lang : String) (text : String)
    (history : Option (List HistoryMsg)) : Stage :=
  let apiKey := jsTrim (env.GEMINI_API_KEY.getD "")
  if apiKey = "" then Stage.early (Body.errorOnly "Server missing GEMINI_API_KEY") 500
  else
    let model := jsTrim (if (env.GEMINI_MODEL.getD "") = "" then "gemini-2.0-flash"
                  else env.GEMINI_MODEL.getD "")
    Stage.call ⟨model, buildInstructions lang, buildContents history text, 280⟩

/-- Lines 112-121 of `route.ts`: field extraction and text validation. -/
def validate (env : Env) (req : Req) : Stage :=
  let lang := normalizeLang (langOf req)
  let text := textOf req
  let history := req.body.bind ReqBody.history
  if text = "" then Stage.early (Body.errorOnly "Missing text") 400
  else if 1500 < text.length then Stage.early (Body.errorOnly "Text too long") 400
  else afterValidation env lang text history

/-- Lines 106-141 of `route.ts`: the handler up to (excluding) the `fetch`.
The auth check trims both the configured `APP_TOKEN` and the sent header. -/
def preUpstream (env : Env) (req : Req) : Stage :=
  let appToken := jsTrim (env.APP_TOKEN.getD "")
  if appToken ≠ "" ∧ jsTrim (req.xAppToken.getD "") ≠ appToken then
    Stage.early (Body.errorOnly "Unauthorized") 401
  else validate env req

/-- The upstream `fetch` outcome: `r.ok`, `r.status`, and the parsed JSON body
(`none` models a body that fails to parse, caught to `{}`). -/
structure Upstream where
  ok : Bool
  status : Nat
  parsed : Option Data
deriving DecidableEq, Repr

/-- The `response_id` computation of `route.ts` lines 168-170: the provider's
`responseId` when truthy, else `crypto.randomUUID()` when available, else
`` `r_${Date.now()}` ``. -/
def mkResponseId (data : Data) (uuid : Option String) (now : Nat) : String :=
  let fallback := match uuid with
    | some u => u
    | none => "r_" ++ toString now
  match data.responseId with
  | some rid => if rid ≠ "" then rid else fallback
  | none => fallback

/-- Lines 152-184 of `route.ts`: the handler from the `fetch` result onwards. -/
def postUpstream (up : Upstream) (uuid : Option String) (now : Nat) : Resp :=
  let data := up.parsed.getD emptyData
  if !up.ok then
    json (Body.upstreamError "Gemini error" up.status data) up.status
  else
    let tutorText := extractTextFromGemini data
    let response_id := mkResponseId data uuid now
    if tutorText = "" then
      json (Body.emptyResponse "Empty response" response_id data) 502
    else
      json (Body.success tutorText response_id) 200

/-- Handler `POST` of `route.ts` lines 103-188, as a function of the environment, the
request, the upstream result and the randomness sources (`uuid` is
`crypto.randomUUID()` when available, `now` is `Date.now()`). -/
def POST (env : Env) (req : Req) (up : Upstream) (uuid : Option String) (now : Nat) : Resp :=
  match preUpstream env req with
  | Stage.early b s => json b s
  | Stage.call _ => postUpstream up uuid now

end Gemini

namespace OpenAIV

/-- Environment configuration read by the OpenAI handler (`process.env.*`). -/
structure Env where
  APP_TOKEN : Option String
  OPENAI_API_KEY : Option String
  OPENAI_MODEL : Option String
deriving DecidableEq, Repr

/-- The parsed JSON request body of variant B: every field may be absent.
Field values are modelled after `.toString()` coercion. -/
structure ReqBody where
  lang : Option String
  text : Option String
  previous_response_id : Option String
deriving DecidableEq, Repr

/-- The inbound request: the `x-app-token` header and the result of
`req.json().catch(() => null)` (`none` when the body does not parse). -/
structure Req where
  xAppToken : Option String
  body : Option ReqBody
deriving DecidableEq, Repr

/-- Function `buildInstructions` of `part_000` lines 18-30: the system-prompt template
of variant B (it differs textually from variant A's), parameterised by the raw
`lang` value — note there is no normalization, only an exact `"it"` test. -/
def buildInstructions (lang : String) : String :=
  let target := if lang = "it" then "Italiano" else "Espanhol (rioplatense neutro)"
  jsTrim ("\nVocê é um tutor de idiomas.\nIdioma alvo: " ++ target ++
    ".\nIdioma das explicações: Português (Brasil).\nRegras:\n- Responda curto e natural no idioma alvo.\n- Depois inclua \"Correções\" corrigindo a frase do usuário (se necessário).\n- Depois inclua \"Dica\" com 1 dica objetiva.\n- Se o usuário escrever em PT-BR, peça para ele tentar no idioma alvo.\n")

/-- One `content` entry of an output item (`{ type, text }`). -/
structure OutContent where
  type : String
  text : Option String
deriving DecidableEq, Repr

/-- One item of the response's `output` array (`{ type, content }`). -/
structure OutputItem where
  type : String
  content : Option (List OutContent)
deriving DecidableEq, Repr

/-- The parsed OpenAI response body: the fields the handler reads. -/
structure Data where
  output : Option (List OutputItem)
  id : Option String
deriving DecidableEq, Repr

/-- The `{}` produced by `r.json().catch(() => ({}))`. -/
def emptyData : Data := ⟨none, none⟩

/-- Function `extractOutputText` of `part_000` lines 32-46: message-type items'
`output_text` string contents, newline-joined, trimmed. -/
def extractOutputText (openaiJson : Data) : String :=
  let out := openaiJson.output.getD []
  let parts := (out.filter (fun item => item.type = "message")).flatMap
    (fun item => (item.content.getD []).filterMap (fun c =>
      if c.type = "output_text" then c.text else none))
  jsTrim (String.intercalate "\n" parts)

/-- The payload of the outbound OpenAI call (`part_000` lines 72-82).  (The
constant `temperature` is a float and is not modelled.) -/
structure Payload where
  model : String
  instructions : String
  input : String
  max_output_tokens : Nat
  store : Bool
  previous_response_id : Option String
deriving DecidableEq, Repr

/-- Response body shapes produced by the handler's `json(...)` calls.  The
success body's `response_id` is `data?.id ?? null`, hence an `Option`. -/
inductive Body where
  | okTrue : Body
  | errorOnly (error : String) : Body
  | upstreamError (error : String) (status : Nat) (details : Data) : Body
  | success (text : String) (response_id : Option String) : Body
deriving DecidableEq, Repr

/-- An HTTP response of variant B. -/
structure Resp where
  status : Nat
  body : Body
  headers : List (String × String)
deriving DecidableEq, Repr

/-- The constant header map of variant B's `json` (`part_000` lines 8-14):
no `cache-control` header here. -/
def defaultHeaders : List (String × String) :=
  [("content-type", "application/json; charset=utf-8"),
   ("access-control-allow-origin", "*"),
   ("access-control-allow-headers", "content-type, x-app-token"),
   ("access-control-allow-methods", "POST, OPTIONS")]

/-- Function `json` of `part_000` lines 5-16. -/
def json (data : Body) (status : Nat) : Resp :=
  ⟨status, data, defaultHeaders⟩

/-- Handler `OPTIONS` of `part_000` lines 48-50. -/
def OPTIONS : Resp := json Body.okTrue 200

/-- Result of the variant-B handler prefix before the outbound call. -/
inductive Stage where
  | early (data : Body) (status : Nat) : Stage
  | call (payload : Payload) : Stage
deriving DecidableEq, Repr

/-- The trimmed user text (`(body?.text ?? "").toString().trim()`, line 62). -/
def textOf (req : Req) : String :=
  jsTrim ((req.body.bind ReqBody.text).getD "")

/-- The raw `lang` value as the handler reads it (`body?.lang ?? "es"`). -/
def langOf (req : Req) : String :=
  (req.body.bind ReqBody.lang).getD "es"

/-- The `previous_response_id` extraction of line 63-64: kept only when
truthy. -/
def prevIdOf (req : Req) : Option String :=
  match req.body.bind ReqBody.previous_response_id with
  | some p => if p ≠ "" then some p else none
  | none => none

/-- Lines 69-82 of `part_000`: credential check and payload assembly, after text
validation has passed.  Note: no `.trim()` on the key, and the falsy test
rejects both an absent and an empty `OPENAI_API_KEY`. -/
def afterValidation (env : Env) (lang : String) (text : String)
    (previous_response_id : Option String) : Stage :=
  let apiKey := env.OPENAI_API_KEY.getD ""
  if apiKey = "" then Stage.early (Body.errorOnly "Server missing OPENAI_API_KEY") 500
  else
    let model := if (env.OPENAI_MODEL.getD "") = "" then "gpt-4.1" else env.OPENAI_MODEL.getD ""
    Stage.call ⟨model, buildInstructions lang, text, 280, false, previous_response_id⟩

/-- Lines 60-67 of `part_000`: field extraction and text validation. -/
def validate (env : Env) (req : Req) : Stage :=
  let lang := langOf req
  let text := textOf req
  if text = "" then Stage.early (Body.errorOnly "Missing text") 400
  else if 1500 < text.length then Stage.early (Body.errorOnly "Text too long") 400
  else afterValidation env lang text (prevIdOf req)

/-- Lines 54-82 of `part_000`: the handler up to (excluding) the `fetch`.  The
auth comparison is on the RAW strings — neither the configured `APP_TOKEN` nor
the sent header is trimmed here. -/
def preUpstream (env : Env) (req : Req) : Stage :=
  let appToken := env.APP_TOKEN.getD ""
  if appToken ≠ "" ∧ req.xAppToken.getD "" ≠ appToken then
    Stage.early (Body.errorOnly "Unauthorized") 401
  else validate env req

/-- The upstream `fetch` outcome for variant B. -/
structure Upstream where
  ok : Bool
  status : Nat
  parsed : Option Data
deriving DecidableEq, Repr

/-- Lines 93-99 of `part_000`: the handler from the `fetch` result onwards.  An
empty extraction is still returned with status 200 here. -/
def postUpstream (up : Upstream) : Resp :=
  let data := up.parsed.getD emptyData
  if !up.ok then
    json (Body.upstreamError "OpenAI error" up.status data) up.status
  else
    let tutorText := extractOutputText data
    json (Body.success tutorText data.id) 200

/-- Handler `POST` of `part_000` lines 52-103, as a function of the environment, the
request and the upstream result. -/
def POST (env : Env) (req : Req) (up : Upstream) : Resp :=
  match preUpstream env req with
  | Stage.early b s => json b s
  | Stage.call _ => postUpstream up

end OpenAIV

/-! Helper lemmas shared by the claim theorems. -/

/-- Every response built by variant A's post-upstream stage carries the
constant header map. -/
theorem gemini_postUpstream_headers (up : Gemini.Upstream) (uuid : Option String) (now : Nat) :
    (Gemini.postUpstream up uuid now).headers = Gemini.defaultHeaders := by
  simp only [Gemini.postUpstream]
  split
  · rfl
  · split <;> rfl

/-- Every response built by variant B's post-upstream stage carries the
constant header map. -/
theorem openaiv_postUpstream_headers (up : OpenAIV.Upstream) :
    (OpenAIV.postUpstream up).headers = OpenAIV.defaultHeaders := by
  simp only [OpenAIV.postUpstream]
  split <;> rfl

/-- Inversion: when variant A's pre-upstream stage decides to make the
outbound call, the payload is exactly the one assembled from the request. -/
theorem gemini_preUpstream_call_inv (env : Gemini.Env) (req : Gemini.Req) (p : Gemini.Payload)
    (h : Gemini.preUpstream env req = Gemini.Stage.call p) :
    p = ⟨jsTrim (if (env.GEMINI_MODEL.getD "") = "" then "gemini-2.0-flash"
                 else env.GEMINI_MODEL.getD ""),
         Gemini.buildInstructions (Gemini.normalizeLang (Gemini.langOf req)),
         Gemini.buildContents (req.body.bind Gemini.ReqBody.history) (Gemini.textOf req),
         280⟩ := by
  simp only [Gemini.preUpstream, Gemini.validate, Gemini.afterValidation] at h
  split at h
  · simp at h
  · split at h
    · simp at h
    · split at h
      · simp at h
      · split at h
        · simp at h
        · exact (Gemini.Stage.call.injEq _ _ |>.mp h.symm)

/-- Inversion: when variant B's pre-upstream stage decides to make the
outbound call, the payload is exactly the one assembled from the request. -/
theorem openaiv_preUpstream_call_inv (env : OpenAIV.Env) (req : OpenAIV.Req) (p : OpenAIV.Payload)
    (h : OpenAIV.preUpstream env req = OpenAIV.Stage.call p) :
    p = ⟨(if (env.OPENAI_MODEL.getD "") = "" then "gpt-4.1" else env.OPENAI_MODEL.getD ""),
         OpenAIV.buildInstructions (OpenAIV.langOf req),
         OpenAIV.textOf req, 280, false, OpenAIV.prevIdOf req⟩ := by
  simp only [OpenAIV.preUpstream, OpenAIV.validate, OpenAIV.afterValidation] at h
  split at h
  · simp at h
  · split at h
    · simp at h
    · split at h
      · simp at h
      · split at h
        · simp at h
        · exact (OpenAIV.Stage.call.injEq _ _ |>.mp h.symm)

/-- The timestamp fallback identifier is never the empty string. -/
theorem r_fallback_ne_empty (n : Nat) : ("r_" ++ toString n) ≠ "" := by
  intro h
  have h2 := congrArg String.length h
  simp [String.length_append] at h2
  exact absurd h2.1 (by decide)

/-! Concrete fixtures used by counterexamples and witnesses. -/

/-- A variant-A environment with only the Gemini key configured. -/
def envA0 : Gemini.Env := ⟨none, some "k", none⟩

/-- A variant-B environment with only the OpenAI key configured. -/
def envB0 : OpenAIV.Env := ⟨none, some "k", none⟩

/-- A variant-A request selecting the Italian target by language name. -/
def reqA_italiano : Gemini.Req := ⟨none, some ⟨some "Italiano", some "Hola", none⟩⟩

/-- A variant-B request whose `lang` names Italian but is not exactly `"it"`. -/
def reqB_italian : OpenAIV.Req := ⟨none, some ⟨some "Italian", some "Ciao", none⟩⟩

/-- The payload variant A assembles for `reqA_italiano` under `envA0`. -/
def payloadA_italiano : Gemini.Payload :=
  ⟨"gemini-2.0-flash", Gemini.buildInstructions "it", Gemini.buildContents none "Hola", 280⟩

/-- The payload variant B assembles for `reqB_italian` under `envB0`. -/
def payloadB_italian : OpenAIV.Payload :=
  ⟨"gpt-4.1", OpenAIV.buildInstructions "Italian", "Ciao", 280, false, none⟩

/-- A successful variant-B upstream result whose `output` is empty. -/
def upB_empty : OpenAIV.Upstream := ⟨true, 200, some ⟨some [], some "resp_x"⟩⟩

/-- A simple valid variant-B request. -/
def reqB_hola : OpenAIV.Req := ⟨none, some ⟨none, some "Hola", none⟩⟩

/-- A simple valid variant-A request. -/
def reqA_hola : Gemini.Req := ⟨none, some ⟨none, some "Hola", none⟩⟩

/-- C9: each variant's extractor, applied to a successful upstream body whose
single candidate (variant A) / single message-type output item (variant B)
carries the text fragments `["Hola", "¿Cómo estás?"]`, returns the single
newline-joined, trimmed string `"Hola\n¿Cómo estás?"`. -/
theorem c9_extractors_newline_join :
    Gemini.extractTextFromGemini
      ⟨some [⟨some ⟨some [⟨some "Hola"⟩, ⟨some "¿Cómo estás?"⟩]⟩⟩], none⟩ =
      "Hola\n¿Cómo estás?"
  ∧ OpenAIV.extractOutputText
      ⟨some [⟨"message", some [⟨"output_text", some "Hola"⟩,
                               ⟨"output_text", some "¿Cómo estás?"⟩]⟩], none⟩ =
      "Hola\n¿Cómo estás?" := by
  constructor
  · decide
  · decide

/-- C10: every response of either handler — the OPTIONS reply and every POST
outcome — carries the four shared headers (content-type, the three CORS
headers), and variant A additionally carries `cache-control: no-store` on
every response. -/
theorem c10_headers_invariant (envA : Gemini.Env) (reqA : Gemini.Req) (upA : Gemini.Upstream)
    (uuid : Option String) (now : Nat)
    (envB : OpenAIV.Env) (reqB : OpenAIV.Req) (upB : OpenAIV.Upstream) :
    (Gemini.POST envA reqA upA uuid now).headers = Gemini.defaultHeaders
  ∧ Gemini.OPTIONS.headers = Gemini.defaultHeaders
  ∧ (OpenAIV.POST envB reqB upB).headers = OpenAIV.defaultHeaders
  ∧ OpenAIV.OPTIONS.headers = OpenAIV.defaultHeaders
  ∧ (∀ h ∈ OpenAIV.defaultHeaders, h ∈ Gemini.defaultHeaders)
  ∧ ("content-type", "application/json; charset=utf-8") ∈ OpenAIV.defaultHeaders
  ∧ ("access-control-allow-origin", "*") ∈ OpenAIV.defaultHeaders
  ∧ ("access-control-allow-headers", "content-type, x-app-token") ∈ OpenAIV.defaultHeaders
  ∧ ("access-control-allow-methods", "POST, OPTIONS") ∈ OpenAIV.defaultHeaders
  ∧ ("cache-control", "no-store") ∈ Gemini.defaultHeaders := by
  refine ⟨?_, rfl, ?_, rfl, by decide, by decide, by decide, by decide, by decide, by decide⟩
  · unfold Gemini.POST
    cases h : Gemini.preUpstream envA reqA with
    | early b s => rfl
    | call p => exact gemini_postUpstream_headers upA uuid now
  · unfold OpenAIV.POST
    cases h : OpenAIV.preUpstream envB reqB with
    | early b s => rfl
    | call p => exact openaiv_postUpstream_headers upB

/-- Auth pass-through for variant A: when the trimmed-comparison auth check
does not fire, the handler proceeds to input validation. -/
theorem gemini_preUpstream_auth_pass (env : Gemini.Env) (req : Gemini.Req)
    (h : ¬(jsTrim (env.APP_TOKEN.getD "") ≠ "" ∧
           jsTrim (req.xAppToken.getD "") ≠ jsTrim (env.APP_TOKEN.getD ""))) :
    Gemini.preUpstream env req = Gemini.validate env req := by
  simp only [Gemini.preUpstream]
  rw [if_neg h]

/-- Auth pass-through for variant B: when the raw-comparison auth check does
not fire, the handler proceeds to input validation. -/
theorem openaiv_preUpstream_auth_pass (env : OpenAIV.Env) (req : OpenAIV.Req)
    (h : ¬(env.APP_TOKEN.getD "" ≠ "" ∧ req.xAppToken.getD "" ≠ env.APP_TOKEN.getD "")) :
    OpenAIV.preUpstream env req = OpenAIV.validate env req := by
  simp only [OpenAIV.preUpstream]
  rw [if_neg h]

/-- Variant A validation rejects an empty trimmed text with 400 Missing text. -/
theorem gemini_validate_empty_text (env : Gemini.Env) (req : Gemini.Req)
    (h : Gemini.textOf req = "") :
    Gemini.validate env req = Gemini.Stage.early (Gemini.Body.errorOnly "Missing text") 400 := by
  simp only [Gemini.validate]
  rw [if_pos h]

/-- Variant B validation rejects an empty trimmed text with 400 Missing text. -/
theorem openaiv_validate_empty_text (env : OpenAIV.Env) (req : OpenAIV.Req)
    (h : OpenAIV.textOf req = "") :
    OpenAIV.validate env req = OpenAIV.Stage.early (OpenAIV.Body.errorOnly "Missing text") 400 := by
  simp only [OpenAIV.validate]
  rw [if_pos h]

/-- The synthesized response identifier is never empty, as long as the UUID
source never yields the empty string. -/
theorem gemini_mkResponseId_ne_empty (d : Gemini.Data) (uuid : Option String) (now : Nat)
    (huuid : uuid ≠ some "") :
    Gemini.mkResponseId d uuid now ≠ "" := by
  cases uuid with
  | none =>
      simp only [Gemini.mkResponseId]
      cases hd : d.responseId with
      | none => exact r_fallback_ne_empty now
      | some rid =>
          dsimp only
          split
          · next hne => exact hne
          · exact r_fallback_ne_empty now
  | some u =>
      have hu : u ≠ "" := fun h => huuid (by rw [h])
      simp only [Gemini.mkResponseId]
      cases hd : d.responseId with
      | none => exact hu
      | some rid =>
          dsimp only
          split
          · next hne => exact hne
          · exact hu

/-- C1 (amended): variant A normalizes the language selector as the claim
states — a lowercased-trimmed `lang` containing `"ital"` (or equal to `"it"`)
yields the Italian system instruction, anything else the Spanish one — but
variant B performs no normalization at all: its system instruction names
Italian exactly when the raw `lang` equals `"it"`. -/
theorem c1_lang_normalization_amended (envA : Gemini.Env) (reqA : Gemini.Req) (pA : Gemini.Payload)
    (envB : OpenAIV.Env) (reqB : OpenAIV.Req) (pB : OpenAIV.Payload)
    (hA : Gemini.preUpstream envA reqA = Gemini.Stage.call pA)
    (hB : OpenAIV.preUpstream envB reqB = OpenAIV.Stage.call pB) :
    pA.system_instruction = Gemini.buildInstructions (Gemini.normalizeLang (Gemini.langOf reqA))
  ∧ (containsSubstr (jsTrim (jsToLower (Gemini.langOf reqA))) "ital" = true ∨
       jsTrim (jsToLower (Gemini.langOf reqA)) = "it" →
       containsSubstr pA.system_instruction "Italiano" = true)
  ∧ (containsSubstr (jsTrim (jsToLower (Gemini.langOf reqA))) "ital" = false →
       jsTrim (jsToLower (Gemini.langOf reqA)) ≠ "it" →
       containsSubstr pA.system_instruction "Espanhol (rioplatense neutro)" = true
       ∧ containsSubstr pA.system_instruction "Italiano" = false)
  ∧ pB.instructions = OpenAIV.buildInstructions (OpenAIV.langOf reqB)
  ∧ (containsSubstr pB.instructions "Italiano" = true ↔ OpenAIV.langOf reqB = "it") := by
  have hpA := gemini_preUpstream_call_inv envA reqA pA hA
  have hpB := openaiv_preUpstream_call_inv envB reqB pB hB
  subst hpA
  subst hpB
  refine ⟨rfl, ?_, ?_, rfl, ?_⟩
  · intro h
    have hit : Gemini.normalizeLang (Gemini.langOf reqA) = "it" := by
      simp only [Gemini.normalizeLang]
      rcases h with h | h
      · rw [if_pos (Or.inr h)]
      · rw [if_pos (Or.inl h)]
    dsimp only
    rw [hit]
    decide
  · intro h1 h2
    have hes : Gemini.normalizeLang (Gemini.langOf reqA) = "es" := by
      simp only [Gemini.normalizeLang]
      rw [if_neg]
      intro hor
      rcases hor with hor | hor
      · exact h2 hor
      · rw [h1] at hor
        exact Bool.false_ne_true hor
    dsimp only
    rw [hes]
    exact ⟨by decide, by decide⟩
  · dsimp only
    constructor
    · intro hcontains
      by_contra hne
      simp only [OpenAIV.buildInstructions, if_neg hne] at hcontains
      exact absurd hcontains (by decide)
    · intro h
      rw [h]
      decide

/-- C1 (counterexample to the claim as stated): for variant B, the `lang`
value `"Italian"` — whose lowercased trimmed form contains `"ital"` — is NOT
normalized to the secondary target: the system instruction sent upstream names
Spanish, not Italian. -/
theorem c1_counterexample :
    containsSubstr (jsTrim (jsToLower (OpenAIV.langOf reqB_italian))) "ital" = true
  ∧ OpenAIV.preUpstream envB0 reqB_italian = OpenAIV.Stage.call payloadB_italian
  ∧ payloadB_italian.instructions = OpenAIV.buildInstructions "Italian"
  ∧ containsSubstr payloadB_italian.instructions "Italiano" = false
  ∧ containsSubstr payloadB_italian.instructions "Espanhol (rioplatense neutro)" = true := by
  refine ⟨by decide, by decide, rfl, by decide, by decide⟩

/-- C1 witness: the amended theorem applied at concrete requests of both
variants. -/
theorem c1_lang_normalization_amended_witness :
    containsSubstr payloadA_italiano.system_instruction "Italiano" = true
  ∧ (containsSubstr payloadB_italian.instructions "Italiano" = true ↔
       OpenAIV.langOf reqB_italian = "it") := by
  have h := c1_lang_normalization_amended envA0 reqA_italiano payloadA_italiano
    envB0 reqB_italian payloadB_italian (by decide) (by decide)
  exact ⟨h.2.1 (Or.inl (by decide)), h.2.2.2.2⟩

/-- A variant-B environment whose shared secret is `"tok"`. -/
def envB_tok : OpenAIV.Env := ⟨some "tok", some "k", none⟩

/-- A variant-B request sending the secret with a trailing space. -/
def reqB_tokSpace : OpenAIV.Req := ⟨some "tok ", some ⟨none, some "Hola", none⟩⟩

/-- A variant-A environment whose shared secret has a trailing space. -/
def envA_secret : Gemini.Env := ⟨some "s3cret ", some "k", none⟩

/-- A variant-A request sending the secret with a leading space. -/
def reqA_secret : Gemini.Req := ⟨some " s3cret", some ⟨none, some "Hola", none⟩⟩

/-- C2 (amended): variant A compares the shared secret after trimming both
sides, exactly as the claim states; variant B compares the RAW strings — a
non-empty raw secret with a raw mismatch yields 401, and only raw equality
proceeds to validation. -/
theorem c2_shared_secret_amended (envA : Gemini.Env) (reqA : Gemini.Req)
    (envB : OpenAIV.Env) (reqB : OpenAIV.Req) :
    (jsTrim (envA.APP_TOKEN.getD "") ≠ "" →
       jsTrim (reqA.xAppToken.getD "") ≠ jsTrim (envA.APP_TOKEN.getD "") →
       Gemini.preUpstream envA reqA = Gemini.Stage.early (Gemini.Body.errorOnly "Unauthorized") 401)
  ∧ (jsTrim (reqA.xAppToken.getD "") = jsTrim (envA.APP_TOKEN.getD "") →
       Gemini.preUpstream envA reqA = Gemini.validate envA reqA)
  ∧ (envB.APP_TOKEN.getD "" ≠ "" →
       reqB.xAppToken.getD "" ≠ envB.APP_TOKEN.getD "" →
       OpenAIV.preUpstream envB reqB = OpenAIV.Stage.early (OpenAIV.Body.errorOnly "Unauthorized") 401)
  ∧ (reqB.xAppToken.getD "" = envB.APP_TOKEN.getD "" →
       OpenAIV.preUpstream envB reqB = OpenAIV.validate envB reqB) := by
  refine ⟨?_, ?_, ?_, ?_⟩
  · intro h1 h2
    simp only [Gemini.preUpstream]
    rw [if_pos ⟨h1, h2⟩]
  · intro h
    exact gemini_preUpstream_auth_pass envA reqA (fun hc => hc.2 h)
  · intro h1 h2
    simp only [OpenAIV.preUpstream]
    rw [if_pos ⟨h1, h2⟩]
  · intro h
    exact openaiv_preUpstream_auth_pass envB reqB (fun hc => hc.2 h)

/-- C2 (counterexample to the claim as stated): for variant B, a request whose
trimmed header equals the trimmed configured secret does NOT proceed to
validation — the raw comparison fails on a trailing space and yields 401. -/
theorem c2_counterexample :
    jsTrim (reqB_tokSpace.xAppToken.getD "") = jsTrim (envB_tok.APP_TOKEN.getD "")
  ∧ envB_tok.APP_TOKEN.getD "" ≠ ""
  ∧ OpenAIV.preUpstream envB_tok reqB_tokSpace =
      OpenAIV.Stage.early (OpenAIV.Body.errorOnly "Unauthorized") 401 := by
  refine ⟨by decide, by decide, by decide⟩

/-- C2 witness: variant A accepts a differently-padded secret after trimming,
variant B rejects an absent header when a secret is configured. -/
theorem c2_shared_secret_amended_witness :
    Gemini.preUpstream envA_secret reqA_secret = Gemini.validate envA_secret reqA_secret
  ∧ OpenAIV.preUpstream envB_tok reqB_hola =
      OpenAIV.Stage.early (OpenAIV.Body.errorOnly "Unauthorized") 401 := by
  have h := c2_shared_secret_amended envA_secret reqA_secret envB_tok reqB_hola
  exact ⟨h.2.1 (by decide), h.2.2.1 (by decide) (by decide)⟩

/-- C3 (amended): a 2xx upstream result with empty extracted text is surfaced
as a distinct 502 "Empty response" error by variant A only; variant B returns
it as a 200 success whose `text` field is the (empty) extraction. -/
theorem c3_empty_generation_amended (upA : Gemini.Upstream) (uuid : Option String) (now : Nat)
    (upB : OpenAIV.Upstream)
    (hokA : upA.ok = true)
    (hemptyA : Gemini.extractTextFromGemini (upA.parsed.getD Gemini.emptyData) = "")
    (hokB : upB.ok = true) :
    Gemini.postUpstream upA uuid now =
      Gemini.json (Gemini.Body.emptyResponse "Empty response"
        (Gemini.mkResponseId (upA.parsed.getD Gemini.emptyData) uuid now)
        (upA.parsed.getD Gemini.emptyData)) 502
  ∧ (Gemini.postUpstream upA uuid now).status = 502
  ∧ OpenAIV.postUpstream upB =
      OpenAIV.json (OpenAIV.Body.success
        (OpenAIV.extractOutputText (upB.parsed.getD OpenAIV.emptyData))
        ((upB.parsed.getD OpenAIV.emptyData).id)) 200 := by
  have e1 : Gemini.postUpstream upA uuid now =
      Gemini.json (Gemini.Body.emptyResponse "Empty response"
        (Gemini.mkResponseId (upA.parsed.getD Gemini.emptyData) uuid now)
        (upA.parsed.getD Gemini.emptyData)) 502 := by
    simp only [Gemini.postUpstream, hokA, Bool.not_true, Bool.false_eq_true, if_false]
    rw [if_pos hemptyA]
  refine ⟨e1, by rw [e1]; rfl, ?_⟩
  simp only [OpenAIV.postUpstream, hokB, Bool.not_true, Bool.false_eq_true, if_false]

/-- C3 (counterexample to the claim as stated): variant B returns a 200
success response even though the upstream 2xx body yields an empty
extraction. -/
theorem c3_counterexample :
    upB_empty.ok = true
  ∧ OpenAIV.extractOutputText (upB_empty.parsed.getD OpenAIV.emptyData) = ""
  ∧ OpenAIV.POST envB0 reqB_hola upB_empty =
      OpenAIV.json (OpenAIV.Body.success "" (some "resp_x")) 200
  ∧ (OpenAIV.POST envB0 reqB_hola upB_empty).status = 200 := by
  refine ⟨by decide, by decide, by decide, by decide⟩

/-- A successful variant-A upstream result with no candidates. -/
def upA_empty : Gemini.Upstream := ⟨true, 200, some ⟨some [], none⟩⟩

/-- C3 witness: the amended theorem at concrete empty upstream results. -/
theorem c3_empty_generation_amended_witness :
    Gemini.postUpstream upA_empty (some "uuid-1") 0 =
      Gemini.json (Gemini.Body.emptyResponse "Empty response" "uuid-1" ⟨some [], none⟩) 502
  ∧ OpenAIV.postUpstream upB_empty =
      OpenAIV.json (OpenAIV.Body.success "" (some "resp_x")) 200 := by
  have h := c3_empty_generation_amended upA_empty (some "uuid-1") 0 upB_empty
    (by decide) (by decide) (by decide)
  exact ⟨h.1.trans (by decide), h.2.2.trans (by decide)⟩

/-- C4: when variant A's upstream call succeeds but the extracted text is
empty, the handler returns 502 with error "Empty response", the upstream body
as details, and a response identifier that is never empty: the provider's
truthy `responseId` when present, otherwise the UUID/timestamp fallback. -/
theorem c4_empty_response_id (up : Gemini.Upstream) (uuid : Option String) (now : Nat)
    (hok : up.ok = true)
    (hempty : Gemini.extractTextFromGemini (up.parsed.getD Gemini.emptyData) = "")
    (huuid : uuid ≠ some "") :
    Gemini.postUpstream up uuid now =
      Gemini.json (Gemini.Body.emptyResponse "Empty response"
        (Gemini.mkResponseId (up.parsed.getD Gemini.emptyData) uuid now)
        (up.parsed.getD Gemini.emptyData)) 502
  ∧ Gemini.mkResponseId (up.parsed.getD Gemini.emptyData) uuid now ≠ ""
  ∧ (∀ rid, (up.parsed.getD Gemini.emptyData).responseId = some rid → rid ≠ "" →
       Gemini.mkResponseId (up.parsed.getD Gemini.emptyData) uuid now = rid) := by
  refine ⟨?_, gemini_mkResponseId_ne_empty _ uuid now huuid, ?_⟩
  · simp only [Gemini.postUpstream, hok, Bool.not_true, Bool.false_eq_true, if_false]
    rw [if_pos hempty]
  · intro rid hr hne
    simp only [Gemini.mkResponseId, hr]
    rw [if_pos hne]

/-- A successful variant-A upstream result carrying a provider `responseId`
but no text. -/
def upA_rid : Gemini.Upstream := ⟨true, 200, some ⟨some [], some "g-123"⟩⟩

/-- C4 witness: the theorem at a concrete empty-text upstream result. -/
theorem c4_empty_response_id_witness :
    Gemini.postUpstream upA_rid none 5 =
      Gemini.json (Gemini.Body.emptyResponse "Empty response" "g-123" ⟨some [], some "g-123"⟩) 502
  ∧ Gemini.mkResponseId (upA_rid.parsed.getD Gemini.emptyData) none 5 ≠ "" := by
  have h := c4_empty_response_id upA_rid none 5 (by decide) (by decide) (by decide)
  exact ⟨h.1.trans (by decide), h.2.1⟩

/-- C5: on a non-2xx upstream status, each handler returns a response whose
status equals the upstream status, whose error names the provider, and whose
details are the upstream JSON body verbatim (the empty object when the body
failed to parse). -/
theorem c5_upstream_passthrough (upA : Gemini.Upstream) (uuid : Option String) (now : Nat)
    (upB : OpenAIV.Upstream)
    (hA : upA.ok = false) (hB : upB.ok = false) :
    Gemini.postUpstream upA uuid now =
      Gemini.json (Gemini.Body.upstreamError "Gemini error" upA.status
        (upA.parsed.getD Gemini.emptyData)) upA.status
  ∧ (Gemini.postUpstream upA uuid now).status = upA.status
  ∧ (upA.parsed = none →
       Gemini.postUpstream upA uuid now =
         Gemini.json (Gemini.Body.upstreamError "Gemini error" upA.status Gemini.emptyData) upA.status)
  ∧ OpenAIV.postUpstream upB =
      OpenAIV.json (OpenAIV.Body.upstreamError "OpenAI error" upB.status
        (upB.parsed.getD OpenAIV.emptyData)) upB.status
  ∧ (OpenAIV.postUpstream upB).status = upB.status := by
  have e1 : Gemini.postUpstream upA uuid now =
      Gemini.json (Gemini.Body.upstreamError "Gemini error" upA.status
        (upA.parsed.getD Gemini.emptyData)) upA.status := by
    simp only [Gemini.postUpstream, hA, Bool.not_false, if_true]
  have e2 : OpenAIV.postUpstream upB =
      OpenAIV.json (OpenAIV.Body.upstreamError "OpenAI error" upB.status
        (upB.parsed.getD OpenAIV.emptyData)) upB.status := by
    simp only [OpenAIV.postUpstream, hB, Bool.not_false, if_true]
  refine ⟨e1, by rw [e1]; rfl, ?_, e2, by rw [e2]; rfl⟩
  intro hparse
  rw [e1, hparse]
  rfl

/-- A variant-A upstream failure with HTTP 429 and a parsed JSON body. -/
def upA429 : Gemini.Upstream := ⟨false, 429, some ⟨none, some "rid"⟩⟩

/-- A variant-B upstream failure with HTTP 429 whose body failed to parse. -/
def upB429 : OpenAIV.Upstream := ⟨false, 429, none⟩

/-- C5 witness: pass-through of a concrete 429 for both variants. -/
theorem c5_upstream_passthrough_witness :
    Gemini.postUpstream upA429 none 0 =
      Gemini.json (Gemini.Body.upstreamError "Gemini error" 429 ⟨none, some "rid"⟩) 429
  ∧ OpenAIV.postUpstream upB429 =
      OpenAIV.json (OpenAIV.Body.upstreamError "OpenAI error" 429 OpenAIV.emptyData) 429 := by
  have h := c5_upstream_passthrough upA429 none 0 upB429 (by decide) (by decide)
  exact ⟨h.1.trans (by decide), h.2.2.2.1.trans (by decide)⟩

/-- C6: when the provider credential is absent (or blank) at the point a
validated request is processed, each handler answers 500 naming the missing
credential and never reaches the outbound-call stage. -/
theorem c6_missing_credential (envA : Gemini.Env) (reqA : Gemini.Req)
    (envB : OpenAIV.Env) (reqB : OpenAIV.Req)
    (hauthA : ¬(jsTrim (envA.APP_TOKEN.getD "") ≠ "" ∧
                jsTrim (reqA.xAppToken.getD "") ≠ jsTrim (envA.APP_TOKEN.getD "")))
    (htextA : Gemini.textOf reqA ≠ "")
    (hlenA : (Gemini.textOf reqA).length ≤ 1500)
    (hkeyA : jsTrim (envA.GEMINI_API_KEY.getD "") = "")
    (hauthB : ¬(envB.APP_TOKEN.getD "" ≠ "" ∧ reqB.xAppToken.getD "" ≠ envB.APP_TOKEN.getD ""))
    (htextB : OpenAIV.textOf reqB ≠ "")
    (hlenB : (OpenAIV.textOf reqB).length ≤ 1500)
    (hkeyB : envB.OPENAI_API_KEY.getD "" = "") :
    Gemini.preUpstream envA reqA =
      Gemini.Stage.early (Gemini.Body.errorOnly "Server missing GEMINI_API_KEY") 500
  ∧ (∀ p, Gemini.preUpstream envA reqA ≠ Gemini.Stage.call p)
  ∧ OpenAIV.preUpstream envB reqB =
      OpenAIV.Stage.early (OpenAIV.Body.errorOnly "Server missing OPENAI_API_KEY") 500
  ∧ (∀ p, OpenAIV.preUpstream envB reqB ≠ OpenAIV.Stage.call p) := by
  have e1 : Gemini.preUpstream envA reqA =
      Gemini.Stage.early (Gemini.Body.errorOnly "Server missing GEMINI_API_KEY") 500 := by
    rw [gemini_preUpstream_auth_pass envA reqA hauthA]
    simp only [Gemini.validate, Gemini.afterValidation]
    rw [if_neg htextA, if_neg (Nat.not_lt.mpr hlenA), if_pos hkeyA]
  have e2 : OpenAIV.preUpstream envB reqB =
      OpenAIV.Stage.early (OpenAIV.Body.errorOnly "Server missing OPENAI_API_KEY") 500 := by
    rw [openaiv_preUpstream_auth_pass envB reqB hauthB]
    simp only [OpenAIV.validate, OpenAIV.afterValidation]
    rw [if_neg htextB, if_neg (Nat.not_lt.mpr hlenB), if_pos hkeyB]
  refine ⟨e1, ?_, e2, ?_⟩
  · intro p h
    rw [e1] at h
    exact Gemini.Stage.noConfusion h
  · intro p h
    rw [e2] at h
    exact OpenAIV.Stage.noConfusion h

/-- A variant-A environment with no configuration at all. -/
def envA_nokey : Gemini.Env := ⟨none, none, none⟩

/-- A variant-B environment whose OpenAI key is the empty string. -/
def envB_nokey : OpenAIV.Env := ⟨none, some "", none⟩

/-- C6 witness: concrete valid requests against credential-less environments. -/
theorem c6_missing_credential_witness :
    Gemini.preUpstream envA_nokey reqA_hola =
      Gemini.Stage.early (Gemini.Body.errorOnly "Server missing GEMINI_API_KEY") 500
  ∧ OpenAIV.preUpstream envB_nokey reqB_hola =
      OpenAIV.Stage.early (OpenAIV.Body.errorOnly "Server missing OPENAI_API_KEY") 500 := by
  have h := c6_missing_credential envA_nokey reqA_hola envB_nokey reqB_hola
    (by decide) (by decide) (by decide) (by decide)
    (by decide) (by decide) (by decide) (by decide)
  exact ⟨h.1, h.2.2.1⟩

/-- C7: given that authorization passes, a request whose trimmed text exceeds
1500 characters is rejected with 400 "Text too long" by both variants, and a
trimmed text of length 1..1500 passes validation, reaching the credential
stage. -/
theorem c7_text_length (envA : Gemini.Env) (reqA : Gemini.Req)
    (envB : OpenAIV.Env) (reqB : OpenAIV.Req)
    (hauthA : ¬(jsTrim (envA.APP_TOKEN.getD "") ≠ "" ∧
                jsTrim (reqA.xAppToken.getD "") ≠ jsTrim (envA.APP_TOKEN.getD "")))
    (hauthB : ¬(envB.APP_TOKEN.getD "" ≠ "" ∧ reqB.xAppToken.getD "" ≠ envB.APP_TOKEN.getD "")) :
    (1500 < (Gemini.textOf reqA).length →
       Gemini.preUpstream envA reqA = Gemini.Stage.early (Gemini.Body.errorOnly "Text too long") 400)
  ∧ (1 ≤ (Gemini.textOf reqA).length → (Gemini.textOf reqA).length ≤ 1500 →
       Gemini.preUpstream envA reqA =
         Gemini.afterValidation envA (Gemini.normalizeLang (Gemini.langOf reqA))
           (Gemini.textOf reqA) (reqA.body.bind Gemini.ReqBody.history))
  ∧ (1500 < (OpenAIV.textOf reqB).length →
       OpenAIV.preUpstream envB reqB = OpenAIV.Stage.early (OpenAIV.Body.errorOnly "Text too long") 400)
  ∧ (1 ≤ (OpenAIV.textOf reqB).length → (OpenAIV.textOf reqB).length ≤ 1500 →
       OpenAIV.preUpstream envB reqB =
         OpenAIV.afterValidation envB (OpenAIV.langOf reqB) (OpenAIV.textOf reqB)
           (OpenAIV.prevIdOf reqB)) := by
  refine ⟨?_, ?_, ?_, ?_⟩
  · intro hlen
    have htext : Gemini.textOf reqA ≠ "" := by
      intro h0
      rw [h0] at hlen
      exact absurd hlen (by decide)
    rw [gemini_preUpstream_auth_pass envA reqA hauthA]
    simp only [Gemini.validate]
    rw [if_neg htext, if_pos hlen]
  · intro h1 h15
    have htext : Gemini.textOf reqA ≠ "" := by
      intro h0
      rw [h0] at h1
      exact absurd h1 (by decide)
    rw [gemini_preUpstream_auth_pass envA reqA hauthA]
    simp only [Gemini.validate]
    rw [if_neg htext, if_neg (Nat.not_lt.mpr h15)]
  · intro hlen
    have htext : OpenAIV.textOf reqB ≠ "" := by
      intro h0
      rw [h0] at hlen
      exact absurd hlen (by decide)
    rw [openaiv_preUpstream_auth_pass envB reqB hauthB]
    simp only [OpenAIV.validate]
    rw [if_neg htext, if_pos hlen]
  · intro h1 h15
    have htext : OpenAIV.textOf reqB ≠ "" := by
      intro h0
      rw [h0] at h1
      exact absurd h1 (by decide)
    rw [openaiv_preUpstream_auth_pass envB reqB hauthB]
    simp only [OpenAIV.validate]
    rw [if_neg htext, if_neg (Nat.not_lt.mpr h15)]

/-- A variant-A request whose text is 1501 characters long. -/
def reqA_long : Gemini.Req :=
  ⟨none, some ⟨none, some (String.mk (List.replicate 1501 'a')), none⟩⟩

/-- C7 witness: an oversized text is rejected, a short one passes validation. -/
theorem c7_text_length_witness :
    Gemini.preUpstream envA0 reqA_long = Gemini.Stage.early (Gemini.Body.errorOnly "Text too long") 400
  ∧ OpenAIV.preUpstream envB0 reqB_hola =
      OpenAIV.afterValidation envB0 (OpenAIV.langOf reqB_hola) (OpenAIV.textOf reqB_hola)
        (OpenAIV.prevIdOf reqB_hola) := by
  have h := c7_text_length envA0 reqA_long envB0 reqB_hola (by decide) (by decide)
  exact ⟨h.1 (by decide), h.2.2.2 (by decide) (by decide)⟩

/-- C8: a request body that fails to parse is treated as absent, so (auth
passing) the request is answered 400 "Missing text", exactly as an empty
request object would be. -/
theorem c8_unparseable_body (envA : Gemini.Env) (reqA : Gemini.Req)
    (envB : OpenAIV.Env) (reqB : OpenAIV.Req)
    (hbA : reqA.body = none) (hbB : reqB.body = none)
    (hauthA : ¬(jsTrim (envA.APP_TOKEN.getD "") ≠ "" ∧
                jsTrim (reqA.xAppToken.getD "") ≠ jsTrim (envA.APP_TOKEN.getD "")))
    (hauthB : ¬(envB.APP_TOKEN.getD "" ≠ "" ∧ reqB.xAppToken.getD "" ≠ envB.APP_TOKEN.getD "")) :
    Gemini.preUpstream envA reqA = Gemini.Stage.early (Gemini.Body.errorOnly "Missing text") 400
  ∧ Gemini.preUpstream envA { reqA with body := some ⟨none, none, none⟩ } =
      Gemini.preUpstream envA reqA
  ∧ OpenAIV.preUpstream envB reqB = OpenAIV.Stage.early (OpenAIV.Body.errorOnly "Missing text") 400
  ∧ OpenAIV.preUpstream envB { reqB with body := some ⟨none, none, none⟩ } =
      OpenAIV.preUpstream envB reqB := by
  have htextA : Gemini.textOf reqA = "" := by
    simp only [Gemini.textOf, hbA, Option.none_bind, Option.getD_none]
    rfl
  have htextA2 : Gemini.textOf { reqA with body := some ⟨none, none, none⟩ } = "" := rfl
  have htextB : OpenAIV.textOf reqB = "" := by
    simp only [OpenAIV.textOf, hbB, Option.none_bind, Option.getD_none]
    rfl
  have htextB2 : OpenAIV.textOf { reqB with body := some ⟨none, none, none⟩ } = "" := rfl
  have e1 := (gemini_preUpstream_auth_pass envA reqA hauthA).trans
    (gemini_validate_empty_text envA reqA htextA)
  have e2 := (gemini_preUpstream_auth_pass envA { reqA with body := some ⟨none, none, none⟩ }
      hauthA).trans
    (gemini_validate_empty_text envA _ htextA2)
  have e3 := (openaiv_preUpstream_auth_pass envB reqB hauthB).trans
    (openaiv_validate_empty_text envB reqB htextB)
  have e4 := (openaiv_preUpstream_auth_pass envB { reqB with body := some ⟨none, none, none⟩ }
      hauthB).trans
    (openaiv_validate_empty_text envB _ htextB2)
  exact ⟨e1, e2.trans e1.symm, e3, e4.trans e3.symm⟩

/-- A variant-A request whose body failed to parse. -/
def reqA_nobody : Gemini.Req := ⟨none, none⟩

/-- A variant-B request whose body failed to parse. -/
def reqB_nobody : OpenAIV.Req := ⟨none, none⟩

/-- C8 witness: unparseable bodies are answered 400 "Missing text". -/
theorem c8_unparseable_body_witness :
    Gemini.preUpstream envA0 reqA_nobody =
      Gemini.Stage.early (Gemini.Body.errorOnly "Missing text") 400
  ∧ OpenAIV.preUpstream envB0 reqB_nobody =
      OpenAIV.Stage.early (OpenAIV.Body.errorOnly "Missing text") 400 := by
  have h := c8_unparseable_body envA0 reqA_nobody envB0 reqB_nobody rfl rfl (by decide) (by decide)
  exact ⟨h.1, h.2.2.1⟩
